import Mathlib

/-
Verification of the TVM dynamic-shared-library module loader
(src/src/runtime/dso_module.cc, class DSOModuleNode).

The embedding models the POSIX branch of the platform layer.  A loaded
library is a symbol table mapping exported names to non-null addresses,
together with the in-library data readable at those addresses: C strings
(readable after casting an address to const char*, as GetFunction does for
the entry-indirection symbol) and nested-import blobs (consumed opaquely
and abstracted by their decoding outcome — an ordered descriptor list, or a
decode failure for a truncated/corrupt blob — since the binary encoding is
owned by the out-of-scope generic module system).  dlsym returning NULL is
modelled as Option.none.  A CHECK(...) failure (glog fatal) is modelled as
Except.error carrying the message the stream operators build.
-/

namespace DSOModule

/-- Machine addresses inside the loaded artifact. -/
abbrev Addr := Nat

/-- An opaque identifier standing for the `this` pointer / `sptr_to_self`
of the owning DSOModuleNode instance. -/
abbrev ModuleId := Nat

/-- One record of the nested-import blob: a module-kind discriminator and a
kind-specific payload (spec section 6; encoding consumed opaquely here). -/
structure ImportDescriptor where
  kind : String
  payload : String
deriving DecidableEq, Repr

/-- Modelled from the spec: the bytes a nested-import blob symbol points to
either decode as an ordered sequence of import descriptors (a count followed
by that many records; the exact binary encoding is owned by the out-of-scope
generic module system) or fail to decode because the blob is truncated or
corrupt (spec section 4.5). -/
inductive BlobData where
  | wellFormed (descs : List ImportDescriptor) : BlobData
  | malformed : BlobData
deriving DecidableEq, Repr

/-- A loaded shared library: the table of exported symbols (dlsym resolves a
name to the symbol's address; absent name = NULL), the C-string data readable
at addresses, and the nested-import blob bytes readable at addresses,
abstracted by their decoding outcome. -/
structure Library where
  syms : List (String × Addr)
  strings : List (Addr × String)
  blobs : List (Addr × BlobData)

/-- The reserved main-entry / entry-indirection symbol name
(runtime::symbol::tvm_module_main, declared in the runtime headers outside
this file; upstream value "__tvm_main__"). -/
def tvm_module_main : String := "__tvm_main__"

/-- The context-slot symbol name (runtime::symbol::tvm_module_ctx, declared
in the runtime headers outside this file; upstream value "__tvm_module_ctx"). -/
def tvm_module_ctx : String := "__tvm_module_ctx"

/-- The nested-import blob symbol name (runtime::symbol::tvm_dev_mblob,
declared in the runtime headers outside this file; upstream value
"__tvm_dev_mblob"). -/
def tvm_dev_mblob : String := "__tvm_dev_mblob"

/-- DSOModuleNode::GetSymbol (dso_module.cc:116-118): dlsym(lib_handle_, name).
Returns the symbol's address, or none for dlsym's NULL when the name is not
exported.  A pure lookup: it never fails. -/
def GetSymbol (lib : Library) (name : String) : Option Addr :=
  lib.syms.lookup name

/-- Reading the NUL-terminated C string at an address, as
reinterpret_cast<const char*>(addr) followed by string reads does in
GetFunction (dso_module.cc:56-57).  An address holding no modelled string
data reads as arbitrary bytes; the model picks "". -/
def readCString (lib : Library) (a : Addr) : String :=
  (lib.strings.lookup a).getD ""

/-- A CHECK(...) failure: glog aborts with the message built by the
stream-insertion operators. -/
structure FatalError where
  msg : String
deriving DecidableEq, Repr

/-- The result of GetFunction: either the empty PackedFunc() (lookup failure,
dso_module.cc:64) or WrapPackedFunc(faddr, sptr_to_self) (dso_module.cc:65),
which records the wrapped address and the keep-alive owner reference. -/
inductive PackedFunc where
  | empty : PackedFunc
  | wrapped (faddr : Addr) (owner : ModuleId) : PackedFunc
deriving DecidableEq, Repr

/-- The message of the CHECK at dso_module.cc:58-59:
"Symbol " << runtime::symbol::tvm_module_main << " is not presented". -/
def mainMissingMsg : String :=
  "Symbol " ++ tvm_module_main ++ " is not presented"

/-- DSOModuleNode::GetFunction (dso_module.cc:51-66).  If the requested name
is runtime::symbol::tvm_module_main, first resolve that same symbol, CHECK
the address is non-null (fatal otherwise), read the C string at it as the
real entry name, and resolve that name for faddr; otherwise resolve the
requested name directly.  A null faddr yields PackedFunc(); otherwise the
address is wrapped together with sptr_to_self. -/
def GetFunction (lib : Library) (name : String) (sptr : ModuleId) :
    Except FatalError PackedFunc :=
  if name = tvm_module_main then
    match GetSymbol lib tvm_module_main with
    | none => .error ⟨mainMissingMsg⟩
    | some a =>
      match GetSymbol lib (readCString lib a) with
      | none => .ok .empty
      | some faddr => .ok (.wrapped faddr sptr)
  else
    match GetSymbol lib name with
    | none => .ok .empty
    | some faddr => .ok (.wrapped faddr sptr)

/-- The message of the CHECK at dso_module.cc:112-114:
"Failed to load dynamic shared library " << name << " " << dlerror(). -/
def loadFailMsg (name err : String) : String :=
  "Failed to load dynamic shared library " ++ name ++ " " ++ err

/-- DSOModuleNode::Load, POSIX branch (dso_module.cc:110-115).  The OS is a
map from paths to libraries (dlopen result; none = NULL); err is the
dlerror() string the OS supplies on failure.  dlopen's result is assigned to
lib_handle_, then CHECKed: a null handle is fatal with a message naming the
path and the loader error. -/
def Load (os : String → Option Library) (err : String) (name : String) :
    Except FatalError Library :=
  match os name with
  | none => .error ⟨loadFailMsg name err⟩
  | some lib => .ok lib

/-- The value of lib_handle_ after Load ran (dso_module.cc:111 assigns
dlopen's result before the CHECK): the dlopen result itself, null included. -/
def handleAfterLoad (os : String → Option Library) (name : String) :
    Option Library :=
  os name

/-- How many times the destructor ~DSOModuleNode (dso_module.cc:43-45)
invokes Unload, given the value of lib_handle_: once if non-null, else
never. -/
def destructorUnloadCount (handle : Option Library) : Nat :=
  if handle.isSome then 1 else 0

/-- The context-injection step of DSOModuleNode::Init (dso_module.cc:70-73):
resolve runtime::symbol::tvm_module_ctx; if found, write the module's own
pointer into the pointer-sized slot at that address; else do nothing.  The
library's mutable data segment is modelled as a map from addresses to stored
pointer words. -/
def InjectContext (lib : Library) (mem : Addr → Option Nat) (self : ModuleId) :
    Addr → Option Nat :=
  match GetSymbol lib tvm_module_ctx with
  | none => mem
  | some a => fun x => if x = a then some self else mem x

/-- Modelled from the spec: ImportModuleBlob (declared in module_util.h,
whose definition is not under src/) decodes the blob as an ordered sequence
of import descriptors — a decode failure on a truncated or corrupt blob is
fatal (spec section 4.5; the message text is not fixed by the spec and the
call site at dso_module.cc:82 passes only the blob and &imports_, not the
path) — then constructs the nested module for each descriptor by kind and
appends them, in blob order, to the owning module's nested-module sequence
(&imports_).  Construction-by-kind is the out-of-scope generic module
system, taken as a parameter. -/
def ImportModuleBlob {μ : Type} (construct : ImportDescriptor → μ)
    (blob : BlobData) (imports : List μ) : Except FatalError (List μ) :=
  match blob with
  | .malformed => .error ⟨"Malformed nested-import blob"⟩
  | .wellFormed descs => .ok (imports ++ descs.map construct)

/-- The nested-import blob bytes stored at an address of the artifact,
abstracted by their decoding outcome (an address holding no modelled blob
carries arbitrary bytes, which do not decode). -/
def blobAt (lib : Library) (a : Addr) : BlobData :=
  (lib.blobs.lookup a).getD BlobData.malformed

/-- The nested-import step of DSOModuleNode::Init (dso_module.cc:77-83):
resolve runtime::symbol::tvm_dev_mblob; if null, do nothing; else pass the
blob at that address to ImportModuleBlob together with &imports_, whose
decode failure is fatal. -/
def LoadImportsStep {μ : Type} (construct : ImportDescriptor → μ)
    (lib : Library) (imports : List μ) : Except FatalError (List μ) :=
  match GetSymbol lib tvm_dev_mblob with
  | none => .ok imports
  | some a => ImportModuleBlob construct (blobAt lib a) imports

/-- DSOModuleNode::Init (dso_module.cc:68-84): Load the library (fatal on
failure), inject the context pointer, then attach the nested imports to the
initially empty imports_ sequence (fatal if the blob is present but does
not decode).  (InitContextFunctions only registers symbol-resolution
callbacks with the library's glue; it does not change the state modelled
here.)  Returns the loaded library, the library memory after context
injection, and the nested-module sequence. -/
def Init {μ : Type} (os : String → Option Library) (err : String)
    (name : String) (self : ModuleId) (mem : Addr → Option Nat)
    (construct : ImportDescriptor → μ) :
    Except FatalError (Library × (Addr → Option Nat) × List μ) :=
  match Load os err name with
  | .error e => .error e
  | .ok lib =>
    match LoadImportsStep construct lib [] with
    | .error e => .error e
    | .ok imports => .ok (lib, InjectContext lib mem self, imports)

/-- Whether an Except value is a success. -/
def exceptOk {ε α : Type} : Except ε α → Bool
  | .ok _ => true
  | .error _ => false

/-- Whether the first character list is an initial segment of the second. -/
def listLeads : List Char → List Char → Bool
  | [], _ => true
  | _ :: _, [] => false
  | a :: as, b :: bs => a == b && listLeads as bs

/-- Whether the first character list occurs contiguously in the second. -/
def occursIn (needle : List Char) : List Char → Bool
  | [] => listLeads needle []
  | c :: rest => listLeads needle (c :: rest) || occursIn needle rest

/-- Whether needle occurs as a contiguous substring of hay. -/
def strOccurs (hay needle : String) : Bool :=
  occursIn needle.toList hay.toList

/-- Concrete artifact for witnesses: exports the entry-indirection symbol at
address 1, whose C string is "real_main", and exports "real_main" at
address 2. -/
def exLibMain : Library :=
  { syms := [(tvm_module_main, 1), ("real_main", 2)]
  , strings := [(1, "real_main")]
  , blobs := [] }

/-- Concrete artifact: the entry-indirection symbol points to "missing_fn",
which is not exported. -/
def exLibDangling : Library :=
  { syms := [(tvm_module_main, 1)]
  , strings := [(1, "missing_fn")]
  , blobs := [] }

/-- Concrete artifact with no entry-indirection symbol at all. -/
def exLibNoMain : Library :=
  { syms := [("foo", 5)], strings := [], blobs := [] }

/-- Concrete artifact: context slot at address 4 and a nested-import blob at
address 3 describing sub-modules A then B. -/
def exLibFull : Library :=
  { syms := [(tvm_module_ctx, 4), (tvm_dev_mblob, 3)]
  , strings := []
  , blobs := [(3, .wellFormed [⟨"cuda", "A"⟩, ⟨"opencl", "B"⟩])] }

/-- Concrete artifact whose nested-import blob at address 6 is corrupt. -/
def exLibBadBlob : Library :=
  { syms := [(tvm_dev_mblob, 6)]
  , strings := []
  , blobs := [(6, .malformed)] }

/-- Concrete OS: every path opens to exLibBadBlob. -/
def exOsBadBlob : String → Option Library :=
  fun _ => some exLibBadBlob

/-- Concrete OS: every path opens to exLibNoMain. -/
def exOsNoMain : String → Option Library :=
  fun _ => some exLibNoMain

/-- Concrete OS on which no path opens. -/
def exOsEmpty : String → Option Library :=
  fun _ => none

/-- Concrete descriptor constructor for witnesses: a nested module is
identified by its payload string. -/
def exConstruct : ImportDescriptor → String :=
  fun d => d.payload

/-- Concrete empty library memory for witnesses. -/
def exMemEmpty : Addr → Option Nat :=
  fun _ => none

/-- C1: if the artifact exports the entry-indirection symbol whose C string
is "real_main" and exports "real_main" itself, then requesting the reserved
main-entry name yields the non-empty callable wrapping "real_main"'s
address with the same owner, and equals the direct lookup of "real_main". -/
theorem getFunction_main_equals_real_main (lib : Library) (sptr : ModuleId)
    (a fa : Addr)
    (h1 : GetSymbol lib tvm_module_main = some a)
    (h2 : readCString lib a = "real_main")
    (h3 : GetSymbol lib "real_main" = some fa) :
    GetFunction lib tvm_module_main sptr = .ok (.wrapped fa sptr) ∧
    GetFunction lib "real_main" sptr = GetFunction lib tvm_module_main sptr := by
  have hne : ("real_main" : String) ≠ tvm_module_main := by decide
  constructor
  · simp only [GetFunction, if_pos rfl, h1, h2, h3, if_true]
  · simp only [GetFunction, if_pos rfl, if_neg hne, h1, h2, h3, if_true]

/-- C1 witness: the property holds on the concrete artifact exLibMain. -/
theorem getFunction_main_equals_real_main_witness :
    GetFunction exLibMain tvm_module_main 0 = .ok (.wrapped 2 0) ∧
    GetFunction exLibMain "real_main" 0 = GetFunction exLibMain tvm_module_main 0 :=
  getFunction_main_equals_real_main exLibMain 0 1 2 (by decide) (by decide) (by decide)

/-- C2: requesting the reserved main-entry name is fatal (with the message
naming the missing symbol) when the entry-indirection symbol is absent, but
yields the empty callable, not a fatal error, when the indirection symbol is
present and the name it designates is not exported. -/
theorem getFunction_main_failure_modes (lib : Library) (sptr : ModuleId) :
    (GetSymbol lib tvm_module_main = none →
      GetFunction lib tvm_module_main sptr = .error ⟨mainMissingMsg⟩) ∧
    (∀ a, GetSymbol lib tvm_module_main = some a →
      GetSymbol lib (readCString lib a) = none →
      GetFunction lib tvm_module_main sptr = .ok .empty) := by
  constructor
  · intro h
    simp only [GetFunction, if_pos rfl, h, if_true]
  · intro a h1 h2
    simp only [GetFunction, if_pos rfl, h1, h2, if_true]

/-- C2 witness: on exLibNoMain the main-entry request is fatal; on
exLibDangling (indirection present, designating the unexported "missing_fn")
it returns the empty callable. -/
theorem getFunction_main_failure_modes_witness :
    GetFunction exLibNoMain tvm_module_main 0 = .error ⟨mainMissingMsg⟩ ∧
    GetFunction exLibDangling tvm_module_main 0 = .ok .empty :=
  ⟨(getFunction_main_failure_modes exLibNoMain 0).1 (by decide),
   (getFunction_main_failure_modes exLibDangling 0).2 1 (by decide) (by decide)⟩

/-- C3: for a requested name other than the reserved main-entry name, lookup
never raises a fatal error: an unexported name yields the empty callable and
an exported name yields the callable wrapping its resolved address. -/
theorem getFunction_other_names (lib : Library) (name : String)
    (sptr : ModuleId) (hne : name ≠ tvm_module_main) :
    (GetSymbol lib name = none → GetFunction lib name sptr = .ok .empty) ∧
    (∀ fa, GetSymbol lib name = some fa →
      GetFunction lib name sptr = .ok (.wrapped fa sptr)) := by
  constructor
  · intro h
    simp only [GetFunction, if_neg hne, h]
  · intro fa h
    simp only [GetFunction, if_neg hne, h]

/-- C3 witness: on exLibNoMain, the unexported "bar" yields the empty
callable and the exported "foo" yields the callable wrapping address 5. -/
theorem getFunction_other_names_witness :
    GetFunction exLibNoMain "bar" 0 = .ok .empty ∧
    GetFunction exLibNoMain "foo" 0 = .ok (.wrapped 5 0) :=
  ⟨(getFunction_other_names exLibNoMain "bar" 0 (by decide)).1 (by decide),
   (getFunction_other_names exLibNoMain "foo" 0 (by decide)).2 5 (by decide)⟩

/-- C4: the destructor invokes Unload at most once; it invokes it exactly
once precisely when Load succeeded (equivalently, when lib_handle_ is
non-null), and a module whose handle is still null destructs without
invoking Unload at all. -/
theorem unload_exactly_once_iff_load_succeeded (os : String → Option Library)
    (err name : String) :
    destructorUnloadCount (handleAfterLoad os name) ≤ 1 ∧
    (exceptOk (Load os err name) = true ↔
      destructorUnloadCount (handleAfterLoad os name) = 1) ∧
    (handleAfterLoad os name = none →
      destructorUnloadCount (handleAfterLoad os name) = 0) := by
  refine ⟨?_, ?_, ?_⟩ <;> cases h : os name <;>
    simp [destructorUnloadCount, handleAfterLoad, Load, exceptOk, h]

/-- C4 witness: a failed open leaves the handle null and the destructor
skips Unload; a successful open yields exactly one Unload. -/
theorem unload_exactly_once_iff_load_succeeded_witness :
    destructorUnloadCount (handleAfterLoad exOsEmpty "lib.so") = 0 ∧
    destructorUnloadCount (handleAfterLoad exOsNoMain "lib.so") = 1 :=
  ⟨(unload_exactly_once_iff_load_succeeded exOsEmpty "e" "lib.so").2.2 rfl,
   (unload_exactly_once_iff_load_succeeded exOsNoMain "e" "lib.so").2.1.mp rfl⟩

/-- C5: with the nested-import blob symbol absent, the nested-module
sequence stays empty; with it present and its blob decoding to a descriptor
sequence, the constructed nested modules are appended to the sequence in
exactly blob order. -/
theorem nested_imports_in_blob_order {μ : Type} (construct : ImportDescriptor → μ)
    (lib : Library) :
    (GetSymbol lib tvm_dev_mblob = none →
      LoadImportsStep construct lib [] = .ok []) ∧
    (∀ a ds, GetSymbol lib tvm_dev_mblob = some a →
      blobAt lib a = BlobData.wellFormed ds →
      LoadImportsStep construct lib [] = .ok (ds.map construct)) := by
  constructor
  · intro h
    simp [LoadImportsStep, h]
  · intro a ds h hb
    simp [LoadImportsStep, ImportModuleBlob, h, hb]

/-- C5 witness: an artifact without the blob symbol gets no nested imports;
exLibFull's blob describing A then B yields the sequence [A, B] in order. -/
theorem nested_imports_in_blob_order_witness :
    LoadImportsStep exConstruct exLibNoMain [] = .ok ([] : List String) ∧
    LoadImportsStep exConstruct exLibFull [] = .ok ["A", "B"] :=
  ⟨(nested_imports_in_blob_order exConstruct exLibNoMain).1 (by decide),
   by rw [(nested_imports_in_blob_order exConstruct exLibFull).2 3
       [⟨"cuda", "A"⟩, ⟨"opencl", "B"⟩] (by decide) (by decide)]; rfl⟩

/-- C6: with the context-slot symbol absent, context injection leaves the
library memory untouched; with it present at address a, the slot at a
receives a pointer to the owning module and every other address is
unchanged. -/
theorem context_injection_writes_only_slot (lib : Library)
    (mem : Addr → Option Nat) (self : ModuleId) :
    (GetSymbol lib tvm_module_ctx = none → InjectContext lib mem self = mem) ∧
    (∀ a, GetSymbol lib tvm_module_ctx = some a →
      InjectContext lib mem self a = some self ∧
      ∀ x, x ≠ a → InjectContext lib mem self x = mem x) := by
  constructor
  · intro h
    simp [InjectContext, h]
  · intro a h
    constructor
    · simp [InjectContext, h]
    · intro x hx
      simp [InjectContext, h, hx]

/-- C6 witness: injection on exLibNoMain (no slot symbol) is the identity;
on exLibFull the slot at address 4 receives the module pointer 7 and
address 9 is unchanged. -/
theorem context_injection_writes_only_slot_witness :
    InjectContext exLibNoMain exMemEmpty 7 = exMemEmpty ∧
    InjectContext exLibFull exMemEmpty 7 4 = some 7 ∧
    InjectContext exLibFull exMemEmpty 7 9 = none :=
  ⟨(context_injection_writes_only_slot exLibNoMain exMemEmpty 7).1 (by decide),
   ((context_injection_writes_only_slot exLibFull exMemEmpty 7).2 4 (by decide)).1,
   by rw [((context_injection_writes_only_slot exLibFull exMemEmpty 7).2 4
       (by decide)).2 9 (by decide)]; rfl⟩

/-- C7 is refuted at this input: opening path "lib.so" yields exLibNoMain,
which lacks the entry-indirection symbol; construction (Init) nevertheless
succeeds with no fatal error, and the missing-indirection fatal error
surfaces only later, at the main-entry request, with a message that does
not mention the artifact path "lib.so". -/
theorem fatal_at_construction_counterexample :
    exceptOk (Init exOsNoMain "" "lib.so" 7 exMemEmpty exConstruct) = true ∧
    GetFunction exLibNoMain tvm_module_main 7 = .error ⟨mainMissingMsg⟩ ∧
    strOccurs mainMissingMsg "lib.so" = false :=
  ⟨rfl, rfl, rfl⟩

/-- C7 amended: a failed library open and a present-but-malformed
nested-import blob are fatal at the point of construction, the open-failure
message naming the path and the loader error string; those are the only
construction-time fatal errors — construction succeeds whenever the
library opens and its blob, if present, decodes, in particular regardless
of whether the entry-indirection symbol is present; the
missing-entry-indirection fatal error surfaces instead at the point of the
main-entry request, with a message naming the missing symbol. -/
theorem fatal_error_policy_by_stage {μ : Type} (os : String → Option Library)
    (err path : String) (self : ModuleId) (mem : Addr → Option Nat)
    (construct : ImportDescriptor → μ) :
    (os path = none →
      Init os err path self mem construct = .error ⟨loadFailMsg path err⟩ ∧
      ∃ pre, loadFailMsg path err = pre ++ path ++ " " ++ err) ∧
    (∀ lib a, os path = some lib →
      GetSymbol lib tvm_dev_mblob = some a → blobAt lib a = BlobData.malformed →
      exceptOk (Init os err path self mem construct) = false) ∧
    (∀ lib, os path = some lib →
      (∀ a, GetSymbol lib tvm_dev_mblob = some a → blobAt lib a ≠ BlobData.malformed) →
      exceptOk (Init os err path self mem construct) = true) ∧
    (∀ lib sptr, GetSymbol lib tvm_module_main = none →
      GetFunction lib tvm_module_main sptr = .error ⟨mainMissingMsg⟩ ∧
      ∃ pre post, mainMissingMsg = pre ++ tvm_module_main ++ post) := by
  refine ⟨fun h => ⟨?_, "Failed to load dynamic shared library ", rfl⟩,
    fun lib a h hb hm => ?_, fun lib h hwf => ?_,
    fun lib sptr h => ⟨?_, "Symbol ", " is not presented", rfl⟩⟩
  · simp [Init, Load, h]
  · simp [Init, Load, LoadImportsStep, ImportModuleBlob, h, hb, hm, exceptOk]
  · cases hb : GetSymbol lib tvm_dev_mblob with
    | none => simp [Init, Load, LoadImportsStep, h, hb, exceptOk]
    | some a =>
      cases hd : blobAt lib a with
      | malformed => exact absurd hd (hwf a hb)
      | wellFormed ds =>
        simp [Init, Load, LoadImportsStep, ImportModuleBlob, h, hb, hd, exceptOk]
  · simp [GetFunction, if_pos rfl, h, if_true]

/-- C7 amended witness: a path that fails to open is fatal at construction
with the path-naming message; a path opening to a library whose blob is
corrupt is fatal at construction; a path opening to a library without a
blob (and without the entry-indirection symbol) constructs without any
fatal error. -/
theorem fatal_error_policy_by_stage_witness :
    Init exOsEmpty "dlerr" "lib.so" 7 exMemEmpty exConstruct =
      .error ⟨loadFailMsg "lib.so" "dlerr"⟩ ∧
    exceptOk (Init exOsBadBlob "dlerr" "lib.so" 7 exMemEmpty exConstruct) = false ∧
    exceptOk (Init exOsNoMain "dlerr" "lib.so" 7 exMemEmpty exConstruct) = true :=
  ⟨((fatal_error_policy_by_stage exOsEmpty "dlerr" "lib.so" 7 exMemEmpty
      exConstruct).1 rfl).1,
   (fatal_error_policy_by_stage exOsBadBlob "dlerr" "lib.so" 7 exMemEmpty
      exConstruct).2.1 exLibBadBlob 6 rfl (by decide) (by decide),
   (fatal_error_policy_by_stage exOsNoMain "dlerr" "lib.so" 7 exMemEmpty
      exConstruct).2.2.1 exLibNoMain rfl
     (fun a ha => Option.noConfusion ha)⟩

/-- C8: constructing from a path the OS cannot open fails fatally, and the
failure message names that path and the loader error string the OS
supplies. -/
theorem load_failure_names_path (os : String → Option Library)
    (err path : String) (hfail : os path = none) :
    Load os err path = .error ⟨loadFailMsg path err⟩ ∧
    ∃ pre, loadFailMsg path err = pre ++ path ++ " " ++ err := by
  constructor
  · simp [Load, hfail]
  · exact ⟨"Failed to load dynamic shared library ", rfl⟩

/-- C8 witness: opening "does_not_exist.so" on an OS with no libraries is
fatal with the message naming that path and the loader error. -/
theorem load_failure_names_path_witness :
    Load exOsEmpty "No such file" "does_not_exist.so" =
      .error ⟨loadFailMsg "does_not_exist.so" "No such file"⟩ :=
  (load_failure_names_path exOsEmpty "No such file" "does_not_exist.so" rfl).1

/-- C9: when the entry-indirection symbol resolves to an address, the
loader reads the C string that this exported pointer designates as the real
entry name, and the main-entry result is exactly the resolution of that
string. -/
theorem entry_indirection_reads_designated_string (lib : Library)
    (sptr : ModuleId) (a : Addr)
    (h : GetSymbol lib tvm_module_main = some a) :
    GetFunction lib tvm_module_main sptr =
      .ok (match GetSymbol lib (readCString lib a) with
           | none => PackedFunc.empty
           | some faddr => PackedFunc.wrapped faddr sptr) := by
  cases h2 : GetSymbol lib (readCString lib a) <;>
    simp only [GetFunction, if_pos rfl, h, h2, if_true]

/-- C9 witness: on exLibMain, whose indirection symbol sits at address 1
designating "real_main", the main-entry result is the resolution of that
designated string. -/
theorem entry_indirection_reads_designated_string_witness :
    GetFunction exLibMain tvm_module_main 3 =
      .ok (match GetSymbol exLibMain (readCString exLibMain 1) with
           | none => PackedFunc.empty
           | some faddr => PackedFunc.wrapped faddr 3) :=
  entry_indirection_reads_designated_string exLibMain 3 1 (by decide)

/-- C10: requesting the reserved main-entry name resolves, in stage 1, that
very same requested identifier: the request is fatal exactly when the
requested name itself is absent from the symbol table, and when it resolves
to an address a, the result is determined by the C string at a — no
distinct indirection-symbol name exists at the interface. -/
theorem main_request_key_is_indirection_symbol (lib : Library) (name : String)
    (sptr : ModuleId) (h : name = tvm_module_main) :
    (exceptOk (GetFunction lib name sptr) = false ↔ GetSymbol lib name = none) ∧
    (∀ a, GetSymbol lib name = some a →
      GetFunction lib name sptr =
        .ok (match GetSymbol lib (readCString lib a) with
             | none => PackedFunc.empty
             | some faddr => PackedFunc.wrapped faddr sptr)) := by
  subst h
  constructor
  · constructor
    · intro hf
      cases h1 : GetSymbol lib tvm_module_main with
      | none => rfl
      | some a =>
        cases h2 : GetSymbol lib (readCString lib a) <;>
          simp [GetFunction, if_pos rfl, h1, h2, exceptOk, if_true] at hf
    · intro h1
      simp [GetFunction, if_pos rfl, h1, exceptOk, if_true]
  · intro a h1
    cases h2 : GetSymbol lib (readCString lib a) <;>
      simp only [GetFunction, if_pos rfl, h1, h2, if_true]

/-- C10 witness: on exLibDangling, requesting the reserved name is
non-fatal exactly because the reserved name itself is exported. -/
theorem main_request_key_is_indirection_symbol_witness :
    (exceptOk (GetFunction exLibDangling tvm_module_main 0) = false ↔
      GetSymbol exLibDangling tvm_module_main = none) :=
  (main_request_key_is_indirection_symbol exLibDangling tvm_module_main 0 rfl).1

end DSOModule
